import Mathlib

/-!
Shallow embedding of src/main.py (DocBot-AI): a FastAPI application exposing
CRUD endpoints over a MongoDB collection plus a composite endpoint that
searches records, writes them into a global Haystack in-memory document
store, runs a retrieval-augmented generation pipeline, and streams back a
generated docx file.

Modelling conventions:
- A MongoDB document is an association list of string keys to BSON values.
  BSON distinguishes an ObjectId value from a string value: a query by
  ObjectId never matches a string id and vice versa, which the embedding
  keeps (constructors Val.oid and Val.vstr).
- The item price is a Python float in the source; it is carried opaquely
  (never computed with), so it is modelled as an integer-valued numeric
  payload to keep equality decidable.
- Python exceptions are modelled by the PyErr type; a handler body is a
  function into Except PyErr, and the try/except wrapper of each route
  turns ANY raised exception (including the HTTPException(404) raised
  inside the try block) into a 500 response, exactly as the source code
  catch-all does.
- Nondeterministic or external effects are passed in as parameters: the
  hex string produced by str(ObjectId()) in create_item, and the reply of
  the LLM pipeline in the composite endpoint.
-/

/-- BSON-ish values stored in MongoDB documents. -/
inductive Val where
  | vstr (s : String)
  | vnum (n : Int)
  | oid (hex : String)
deriving DecidableEq, Repr

/-- A MongoDB document: ordered association list of keys to values. -/
abbrev MDoc := List (String × Val)

/-- The items collection, as the ordered list of its documents. -/
abbrev Store := List MDoc

/-- Python dict/BSON key lookup: first binding of the key wins. -/
def lookupKey : MDoc → String → Option Val
  | [], _ => none
  | (k0, v) :: rest, k => if k0 = k then some v else lookupKey rest k

/-- MongoDB dollar-set of one key: replace the first binding in place, or
append the key at the end when absent. -/
def setKey : MDoc → String → Val → MDoc
  | [], k, v => [(k, v)]
  | (k0, v0) :: rest, k, v =>
    if k0 = k then (k, v) :: rest else (k0, v0) :: setKey rest k v

/-- MongoDB dollar-set of an update document: set each key in order. -/
def setFields (d : MDoc) (upd : MDoc) : MDoc :=
  upd.foldl (fun acc kv => setKey acc kv.1 kv.2) d

/-- Python exceptions that the handlers can raise. -/
inductive PyErr where
  | httpExc (status : Nat) (detail : String)
  | validation (field : String)
  | invalidId (s : String)
  | keyErr
  | indexErr
  | typeErr
  | attrErr
  | duplicateKey
  | duplicateDoc
deriving DecidableEq, Repr

/-- Rendering of str(e) used when the catch-all interpolates the exception
into the 500 detail. FastAPI renders an HTTPException as status colon
detail; the other renderings are abbreviated but injective per kind. -/
def errStr : PyErr → String
  | .httpExc status detail => toString status ++ ": " ++ detail
  | .validation field => "1 validation error for ItemInDB: " ++ field ++ " Field required"
  | .invalidId s => s ++ " is not a valid ObjectId"
  | .keyErr => "key error"
  | .indexErr => "list index out of range"
  | .typeErr => "type error"
  | .attrErr => "attribute error"
  | .duplicateKey => "duplicate key error"
  | .duplicateDoc => "duplicate document error"

/-- Pydantic model Item (request body of POST and PUT). -/
structure Item where
  name : String
  description : String
  price : Int
deriving DecidableEq, Repr

/-- Pydantic model ItemInDB: Item plus the id field (response model). -/
structure ItemInDB where
  name : String
  description : String
  price : Int
  id : String
deriving DecidableEq, Repr

/-- item.model_dump of the source: the three Item fields as a document. -/
def Item.model_dump (it : Item) : MDoc :=
  [("name", Val.vstr it.name), ("description", Val.vstr it.description),
   ("price", Val.vnum it.price)]

/-- Pydantic string field validation: present and a string, else a
validation error for that field. -/
def getStrField (d : MDoc) (k : String) : Except PyErr String :=
  match lookupKey d k with
  | some (Val.vstr s) => Except.ok s
  | _ => Except.error (PyErr.validation k)

/-- Pydantic numeric field validation. -/
def getNumField (d : MDoc) (k : String) : Except PyErr Int :=
  match lookupKey d k with
  | some (Val.vnum n) => Except.ok n
  | _ => Except.error (PyErr.validation k)

/-- ItemInDB(**doc) of the source: pydantic v2 validates fields name,
description, price, id in declaration order, ignoring extra keys such as
the underscore-id key of a stored document. A document lacking an id key
raises a ValidationError. -/
def mkItemInDB (d : MDoc) : Except PyErr ItemInDB :=
  match getStrField d "name" with
  | Except.error e => Except.error e
  | Except.ok n =>
    match getStrField d "description" with
    | Except.error e => Except.error e
    | Except.ok ds =>
      match getNumField d "price" with
      | Except.error e => Except.error e
      | Except.ok p =>
        match getStrField d "id" with
        | Except.error e => Except.error e
        | Except.ok i => Except.ok ⟨n, ds, p, i⟩

/-- Hex digit test used by ObjectId validation. -/
def isHexChar (c : Char) : Bool :=
  c.isDigit || (('a' ≤ c) && (c ≤ 'f')) || (('A' ≤ c) && (c ≤ 'F'))

/-- Validity of a string as a bson ObjectId: exactly 24 hex characters. -/
def isValidObjectId (s : String) : Bool :=
  s.length == 24 && s.data.all isHexChar

/-- Lowercasing of a string by mapping over its characters; structurally
recursive so that concrete instances reduce. -/
def strToLower (s : String) : String := String.mk (s.data.map Char.toLower)

/-- ObjectId(item_id) of the source: raises InvalidId on malformed input,
otherwise yields the ObjectId (normalised to lowercase hex, matching byte
equality of bson ObjectIds). -/
def toObjectId (s : String) : Except PyErr String :=
  if isValidObjectId s then Except.ok (strToLower s) else Except.error (PyErr.invalidId s)

/-- collection.find_one on an id query: first document whose underscore-id
key equals the queried BSON value. -/
def findOne : Store → Val → Option MDoc
  | [], _ => none
  | d :: ds, idv => if lookupKey d "_id" = some idv then some d else findOne ds idv

/-- collection.insert_one: appends the document; raises DuplicateKeyError
when a document with the same id value already exists. -/
def insertOne (st : Store) (d : MDoc) : Except PyErr Store :=
  match lookupKey d "_id" with
  | some idv =>
    if (findOne st idv).isSome then Except.error PyErr.duplicateKey
    else Except.ok (st ++ [d])
  | none => Except.ok (st ++ [d])

/-- collection.find_one_and_update with dollar-set and return_document
True: updates the first match in place and returns the updated document. -/
def updFirst : Store → Val → MDoc → Option MDoc × Store
  | [], _, _ => (none, [])
  | d :: ds, idv, upd =>
    if lookupKey d "_id" = some idv then
      (some (setFields d upd), setFields d upd :: ds)
    else
      let r := updFirst ds idv upd
      (r.1, d :: r.2)

/-- collection.find_one_and_delete: removes the first match and returns
its former representation. -/
def delFirst : Store → Val → Option MDoc × Store
  | [], _ => (none, [])
  | d :: ds, idv =>
    if lookupKey d "_id" = some idv then (some d, ds)
    else
      let r := delFirst ds idv
      (r.1, d :: r.2)

/-- HTTP response of an item route: success body or error status plus
detail. -/
inductive Resp where
  | ok (body : ItemInDB)
  | err (status : Nat) (detail : String)
deriving DecidableEq, Repr

/-- Body of the GET items by id handler inside its try block. -/
def get_item_inner (st : Store) (item_id : String) : Except PyErr ItemInDB :=
  match toObjectId item_id with
  | Except.error e => Except.error e
  | Except.ok hex =>
    match findOne st (Val.oid hex) with
    | none => Except.error (PyErr.httpExc 404 "Item not found")
    | some d => mkItemInDB d

/-- GET items by id route: the except clause catches every exception,
including the HTTPException(404) raised inside the try block, and
re-raises it as a 500 with the original rendered into the detail. -/
def get_item (st : Store) (item_id : String) : Resp :=
  match get_item_inner st item_id with
  | Except.ok v => Resp.ok v
  | Except.error e => Resp.err 500 ("Error retrieving item: " ++ errStr e)

/-- Body of the POST items handler inside its try block. The genHex
parameter is the hex string produced by str(ObjectId()) when no truthy
custom id is supplied. The state after the body reflects that insert_one
has already happened even when a later step raises. -/
def create_item_inner (st : Store) (item : Item) (custom_id : Option String)
    (genHex : String) : Except PyErr ItemInDB × Store :=
  let idStr :=
    match custom_id with
    | some s => if s = "" then genHex else s
    | none => genHex
  let item_data := item.model_dump ++ [("_id", Val.vstr idStr)]
  match insertOne st item_data with
  | Except.error e => (Except.error e, st)
  | Except.ok st1 =>
    match findOne st1 (Val.vstr idStr) with
    | none => (Except.error PyErr.typeErr, st1)
    | some created => (mkItemInDB created, st1)

/-- POST items route with its catch-all wrapper. -/
def create_item (st : Store) (item : Item) (custom_id : Option String)
    (genHex : String) : Resp × Store :=
  match create_item_inner st item custom_id genHex with
  | (Except.ok v, st1) => (Resp.ok v, st1)
  | (Except.error e, st1) => (Resp.err 500 ("Error creating item: " ++ errStr e), st1)

/-- Body of the PUT items by id handler inside its try block. -/
def update_item_inner (st : Store) (item_id : String) (item : Item) :
    Except PyErr ItemInDB × Store :=
  match toObjectId item_id with
  | Except.error e => (Except.error e, st)
  | Except.ok hex =>
    match updFirst st (Val.oid hex) item.model_dump with
    | (none, st1) => (Except.error (PyErr.httpExc 404 "Item not found"), st1)
    | (some d, st1) => (mkItemInDB d, st1)

/-- PUT items by id route with its catch-all wrapper. -/
def update_item (st : Store) (item_id : String) (item : Item) : Resp × Store :=
  match update_item_inner st item_id item with
  | (Except.ok v, st1) => (Resp.ok v, st1)
  | (Except.error e, st1) => (Resp.err 500 ("Error updating item: " ++ errStr e), st1)

/-- Body of the DELETE items by id handler inside its try block. -/
def delete_item_inner (st : Store) (item_id : String) :
    Except PyErr ItemInDB × Store :=
  match toObjectId item_id with
  | Except.error e => (Except.error e, st)
  | Except.ok hex =>
    match delFirst st (Val.oid hex) with
    | (none, st1) => (Except.error (PyErr.httpExc 404 "Item not found"), st1)
    | (some d, st1) => (mkItemInDB d, st1)

/-- DELETE items by id route with its catch-all wrapper. -/
def delete_item (st : Store) (item_id : String) : Resp × Store :=
  match delete_item_inner st item_id with
  | (Except.ok v, st1) => (Resp.ok v, st1)
  | (Except.error e, st1) => (Resp.err 500 ("Error deleting item: " ++ errStr e), st1)

/-- Boolean test that a character list occurs at the head of another. -/
def headRun : List Char → List Char → Bool
  | [], _ => true
  | _ :: _, [] => false
  | p :: ps, c :: cs => p = c && headRun ps cs

/-- Boolean test that a character list occurs somewhere in another. -/
def hasRun (pat : List Char) : List Char → Bool
  | [] => headRun pat []
  | c :: cs => headRun pat (c :: cs) || hasRun pat cs

/-- Case-insensitive regex-as-substring match of the search word against a
description, modelling the dollar-regex query with options i for a plain
word without metacharacters. -/
def descMatches (word desc : String) : Bool :=
  hasRun (strToLower word).data (strToLower desc).data

/-- collection.find on the description regex, limited by to_list to the
first 100 documents: documents whose description key is a string matching
the word, in store order. -/
def matchedItems (st : Store) (word : String) : List MDoc :=
  (st.filter (fun d =>
    match lookupKey d "description" with
    | some (Val.vstr s) => descMatches word s
    | _ => false)).take 100

/-- Rendering str of a BSON value, as applied to the stored id. -/
def strOfVal : Val → String
  | Val.vstr s => s
  | Val.vnum n => toString n
  | Val.oid hex => hex

/-- One HaystackDocument built from an item: id is str of the underscore-id
key, content is the description. Subscripting a missing key raises
KeyError. -/
def toHaystackDoc (d : MDoc) : Except PyErr (String × String) :=
  match lookupKey d "description" with
  | some (Val.vstr c) =>
    match lookupKey d "_id" with
    | some idv => Except.ok (strOfVal idv, c)
    | none => Except.error PyErr.keyErr
  | some _ => Except.error PyErr.typeErr
  | none => Except.error PyErr.keyErr

/-- The global Haystack InMemoryDocumentStore state: the list of written
documents as id and content pairs, in write order. -/
abbrev DStore := List (String × String)

/-- document_store.write_documents with the default duplicate policy of
the in-memory store, which fails on a duplicate id: documents are written
one by one, and a duplicate raises after the earlier ones were written. -/
def write_documents : DStore → List (String × String) → Option PyErr × DStore
  | ds, [] => (none, ds)
  | ds, nd :: rest =>
    if ds.any (fun od => od.1 = nd.1) then (some PyErr.duplicateDoc, ds)
    else write_documents (ds ++ [nd]) rest

/-- HTTP response of the composite endpoint: a file response or an error. -/
inductive DocxResp where
  | file (filename : String)
  | err (status : Nat) (detail : String)
deriving DecidableEq, Repr

/-- Body of the composite endpoint inside its try block. The search runs
against the Mongo store, the matched documents are written into the GLOBAL
Haystack document store (which is never cleared), the pipeline runs BM25
retrieval over that global store followed by prompt building and the LLM
call, whose first reply is the llmReply parameter (an external effect),
and the docx is saved under the fixed filename. -/
def generate_docx_inner (st : Store) (ds : DStore) (word : String)
    (llmReply : String) : Except PyErr String × DStore :=
  let items := matchedItems st word
  if items = [] then
    (Except.error (PyErr.httpExc 404 "No items found with the given word in description"), ds)
  else
    match items.mapM toHaystackDoc with
    | Except.error e => (Except.error e, ds)
    | Except.ok haystack_docs =>
      match write_documents ds haystack_docs with
      | (some e, ds1) => (Except.error e, ds1)
      | (none, ds1) =>
        let _ := llmReply
        (Except.ok "Ollama_Response.docx", ds1)

/-- GET generate_docx_from_query route with its catch-all wrapper: every
exception raised inside the try block, including the HTTPException(404)
for zero matches, is re-raised as a 500. -/
def generate_docx_from_query (st : Store) (ds : DStore) (word : String)
    (llmReply : String) : DocxResp × DStore :=
  match generate_docx_inner st ds word llmReply with
  | (Except.ok f, ds1) => (DocxResp.file f, ds1)
  | (Except.error e, ds1) => (DocxResp.err 500 ("Internal Server Error: " ++ errStr e), ds1)

/-- JSON-ish values of the model-server response envelope. Numbers are
modelled as integers; the content field of interest is a string. -/
inductive JVal where
  | jstr (s : String)
  | jnum (n : Int)
  | jarr (xs : List JVal)
  | jobj (kvs : List (String × JVal))
  | jnull

/-- Python dict get on a JSON object. -/
def jGet : List (String × JVal) → String → Option JVal
  | [], _ => none
  | (k0, v) :: rest, k => if k0 = k then some v else jGet rest k

/-- Python truthiness of a JSON value. -/
def pyTruthy : JVal → Bool
  | JVal.jstr s => !s.isEmpty
  | JVal.jnum n => !(n = 0)
  | JVal.jarr xs => !xs.isEmpty
  | JVal.jobj kvs => !kvs.isEmpty
  | JVal.jnull => false

/-- Python subscript by zero: first element of a list, first character of
a nonempty string, IndexError on empty, KeyError on a dict without the
integer key, TypeError otherwise. -/
def pySub0 : JVal → Except PyErr JVal
  | JVal.jarr [] => Except.error PyErr.indexErr
  | JVal.jarr (x :: _) => Except.ok x
  | JVal.jstr s =>
    match s.data with
    | [] => Except.error PyErr.indexErr
    | c :: _ => Except.ok (JVal.jstr (String.mk [c]))
  | JVal.jobj _ => Except.error PyErr.keyErr
  | _ => Except.error PyErr.typeErr

/-- Python dict get with a default on a JSON value: AttributeError when
the value is not a dict. -/
def pyGetDefault (v : JVal) (k : String) (dflt : JVal) : Except PyErr JVal :=
  match v with
  | JVal.jobj o => Except.ok ((jGet o k).getD dflt)
  | _ => Except.error PyErr.attrErr

/-- The answer extraction of query_ollama_model: response_data get choices
with default a one-element list of an empty dict, subscript zero, get
message with default empty dict, get content with default empty string. -/
def extractAnswer (env : List (String × JVal)) : Except PyErr JVal :=
  match pySub0 ((jGet env "choices").getD (JVal.jarr [JVal.jobj []])) with
  | Except.error e => Except.error e
  | Except.ok c0 =>
    match pyGetDefault c0 "message" (JVal.jobj []) with
    | Except.error e => Except.error e
    | Except.ok msg =>
      match pyGetDefault msg "content" (JVal.jstr "") with
      | Except.error e => Except.error e
      | Except.ok content => Except.ok content

/-- query_ollama_model after a successful transport round trip, applied to
the decoded response envelope: extracts the answer and raises the empty
response HTTPException(500) when the answer is falsy. -/
def query_ollama_model (env : List (String × JVal)) : Except PyErr JVal :=
  match extractAnswer env with
  | Except.error e => Except.error e
  | Except.ok answer =>
    if pyTruthy answer then Except.ok answer
    else Except.error (PyErr.httpExc 500 "Ollama response does not contain a valid answer")

/-- Presence of a usable answer field in the envelope, per the claim: a
choices array with a first object whose message object carries a truthy
content value. -/
def hasUsableAnswer (env : List (String × JVal)) : Bool :=
  match jGet env "choices" with
  | some (JVal.jarr (JVal.jobj c0 :: _)) =>
    match jGet c0 "message" with
    | some (JVal.jobj m) =>
      match jGet m "content" with
      | some v => pyTruthy v
      | none => false
    | _ => false
  | _ => false

/-- Envelopes on which the extraction path itself cannot raise: the
choices key is absent, or is an array whose first element is an object
whose message key, when present, is an object. -/
def goodPath (env : List (String × JVal)) : Bool :=
  match jGet env "choices" with
  | none => true
  | some (JVal.jarr (JVal.jobj c0 :: _)) =>
    match jGet c0 "message" with
    | none => true
    | some (JVal.jobj _) => true
    | some _ => false
  | some _ => false

/-- Concrete well-formed ObjectId hex string used as a test input. -/
def hex0 : String := "0123456789abcdef01234567"

/-- Concrete valid Item payload used as a test input. -/
def it0 : Item := ⟨"a", "b", 1⟩

/-- Concrete stored document whose id is a genuine ObjectId value, as an
externally inserted record would have. -/
def docA : MDoc :=
  [("_id", Val.oid hex0), ("name", Val.vstr "n"),
   ("description", Val.vstr "red widget"), ("price", Val.vnum 5)]

/-- Concrete second stored document with a distinct description. -/
def docB : MDoc :=
  [("_id", Val.vstr "b"), ("name", Val.vstr "m"),
   ("description", Val.vstr "blue gadget"), ("price", Val.vnum 6)]

/-- Setting a key makes it look up to the new value. -/
theorem lookup_setKey_self (d : MDoc) (k : String) (v : Val) :
    lookupKey (setKey d k v) k = some v := by
  induction d with
  | nil => simp [setKey, lookupKey]
  | cons kv rest ih =>
    obtain ⟨k0, v0⟩ := kv
    by_cases h : k0 = k
    · subst h
      simp [setKey, lookupKey]
    · simp [setKey, lookupKey, h, ih]

/-- Setting a key leaves every other key unchanged. -/
theorem lookup_setKey_other (d : MDoc) (k k1 : String) (v : Val) (h : k1 ≠ k) :
    lookupKey (setKey d k v) k1 = lookupKey d k1 := by
  induction d with
  | nil => simp [setKey, lookupKey, Ne.symm h]
  | cons kv rest ih =>
    obtain ⟨k0, v0⟩ := kv
    by_cases hk : k0 = k
    · subst hk
      simp [setKey, lookupKey, Ne.symm h]
    · simp only [setKey, if_neg hk, lookupKey]
      by_cases hk1 : k0 = k1
      · simp [hk1]
      · simp [hk1, ih]

/-- Locating the first match: when find_one_and_update finds a document,
the store splits around it, no earlier document matches, and the update
replaces exactly that document in place. -/
theorem updFirst_of_findOne (st : Store) (idv : Val) (d upd : MDoc)
    (h : findOne st idv = some d) :
    ∃ pre post, st = pre ++ d :: post ∧
      (∀ e ∈ pre, lookupKey e "_id" ≠ some idv) ∧
      updFirst st idv upd = (some (setFields d upd), pre ++ setFields d upd :: post) := by
  induction st with
  | nil => simp [findOne] at h
  | cons d0 ds ih =>
    by_cases h0 : lookupKey d0 "_id" = some idv
    · have hd : d0 = d := by
        simpa [findOne, h0] using h
      subst hd
      exact ⟨[], ds, rfl, by simp, by simp [updFirst, h0]⟩
    · have h1 : findOne ds idv = some d := by
        simpa [findOne, h0] using h
      obtain ⟨pre, post, hsplit, hpre, hupd⟩ := ih h1
      refine ⟨d0 :: pre, post, by simp [hsplit], ?_, ?_⟩
      · intro e he
        rcases List.mem_cons.mp he with he0 | hemem
        · exact he0 ▸ h0
        · exact hpre e hemem
      · simp [updFirst, h0, hupd]

/-- Appending a document to a store where the id was absent makes find_one
find the appended document exactly when its id key matches. -/
theorem findOne_append_of_none (st : Store) (idv : Val) (d : MDoc)
    (h : findOne st idv = none) :
    findOne (st ++ [d]) idv =
      (if lookupKey d "_id" = some idv then some d else none) := by
  induction st with
  | nil => simp [findOne]
  | cons d0 ds ih =>
    by_cases h0 : lookupKey d0 "_id" = some idv
    · simp [findOne, h0] at h
    · have h1 : findOne ds idv = none := by
        simpa [findOne, h0] using h
      simp [findOne, h0, ih h1]

/-- Writing documents whose ids are pairwise distinct and absent from the
store succeeds and appends them in order. -/
theorem write_documents_fresh (new : List (String × String)) :
    ∀ ds : DStore, (new.map Prod.fst).Nodup →
    (∀ p ∈ new, ∀ q ∈ ds, p.1 ≠ q.1) →
    write_documents ds new = (none, ds ++ new) := by
  induction new with
  | nil => intro ds _ _; simp [write_documents]
  | cons nd rest ih =>
    intro ds hnodup hfresh
    have hany : (ds.any (fun od => od.1 = nd.1)) = false := by
      simp only [List.any_eq_false, decide_eq_true_eq]
      intro q hq
      exact fun hqe => hfresh nd (List.mem_cons_self nd rest) q hq hqe.symm
    rw [List.map_cons, List.nodup_cons] at hnodup
    have hnodup1 : (rest.map Prod.fst).Nodup := hnodup.2
    have hhead : nd.1 ∉ rest.map Prod.fst := hnodup.1
    have hfresh1 : ∀ p ∈ rest, ∀ q ∈ ds ++ [nd], p.1 ≠ q.1 := by
      intro p hp q hq
      rcases List.mem_append.mp hq with hq1 | hq2
      · exact hfresh p (List.mem_cons_of_mem nd hp) q hq1
      · have hqnd : q = nd := by simpa using hq2
        subst hqnd
        intro hpe
        exact hhead (hpe ▸ List.mem_map_of_mem Prod.fst hp)
    calc write_documents ds (nd :: rest)
        = write_documents (ds ++ [nd]) rest := by
          simp only [write_documents, hany]
          simp
      _ = (none, ds ++ [nd] ++ rest) := ih (ds ++ [nd]) hnodup1 hfresh1
      _ = (none, ds ++ nd :: rest) := by simp

/-- Answer extractions that succeed on an envelope lacking a usable answer
only ever produce a falsy value. -/
theorem extract_falsy_of_not_usable (env : List (String × JVal))
    (h : hasUsableAnswer env = false) :
    ∀ v, extractAnswer env = Except.ok v → pyTruthy v = false := by
  intro v hv
  unfold extractAnswer at hv
  rcases hc : jGet env "choices" with _ | cv
  · rw [hc] at hv
    simp [pySub0, pyGetDefault, jGet] at hv
    subst hv
    rfl
  · rw [hc] at hv
    rcases cv with s | n | xs | kvs | _
    · rcases hs : s.data with _ | ⟨c, cs⟩
      · simp [pySub0, hs] at hv
      · simp [pySub0, hs, pyGetDefault] at hv
    · simp [pySub0] at hv
    · rcases xs with _ | ⟨x, rest⟩
      · simp [pySub0] at hv
      · rcases x with s | n | xs2 | o | _
        · simp [pySub0, pyGetDefault] at hv
        · simp [pySub0, pyGetDefault] at hv
        · simp [pySub0, pyGetDefault] at hv
        · simp only [Option.getD_some, pySub0, pyGetDefault] at hv
          rcases hm : jGet o "message" with _ | mv
          · rw [hm] at hv
            simp [jGet] at hv
            subst hv
            rfl
          · rw [hm] at hv
            rcases mv with s | n | xs3 | m | _
            · simp at hv
            · simp at hv
            · simp at hv
            · simp only [Option.getD_some] at hv
              rcases hcon : jGet m "content" with _ | w
              · rw [hcon] at hv
                simp at hv
                subst hv
                rfl
              · rw [hcon] at hv
                simp at hv
                subst hv
                have hu : hasUsableAnswer env = pyTruthy w := by
                  simp [hasUsableAnswer, hc, hm, hcon]
                rw [hu] at h
                exact h
            · simp at hv
        · simp [pySub0, pyGetDefault] at hv
    · simp [pySub0] at hv
    · simp [pySub0] at hv

/-- On envelopes whose extraction path is well formed the extraction never
raises. -/
theorem extract_ok_of_goodPath (env : List (String × JVal))
    (hg : goodPath env = true) :
    ∃ v, extractAnswer env = Except.ok v := by
  unfold goodPath at hg
  rcases hc : jGet env "choices" with _ | cv
  · exact ⟨JVal.jstr "", by simp [extractAnswer, hc, pySub0, pyGetDefault, jGet]⟩
  · rw [hc] at hg
    rcases cv with s | n | xs | kvs | _
    · simp at hg
    · simp at hg
    · rcases xs with _ | ⟨x, rest⟩
      · simp at hg
      · rcases x with s | n | xs2 | o | _
        · simp at hg
        · simp at hg
        · simp at hg
        · simp only [] at hg
          rcases hm : jGet o "message" with _ | mv
          · exact ⟨JVal.jstr "", by simp [extractAnswer, hc, hm, pySub0, pyGetDefault, jGet]⟩
          · rw [hm] at hg
            rcases mv with s | n | xs3 | m | _
            · simp at hg
            · simp at hg
            · simp at hg
            · exact ⟨(jGet m "content").getD (JVal.jstr ""),
                by simp [extractAnswer, hc, hm, pySub0, pyGetDefault]⟩
            · simp at hg
        · simp at hg
    · simp at hg
    · simp at hg

/-- C1: the claimed POST then GET roundtrip fails on the code. Evaluating
create_item on a valid payload with no custom id shows the document is
inserted into the collection but the response is a 500 (the stored
document carries the underscore-id key while the ItemInDB response model
requires an id field, so its validation raises and the catch-all maps it
to 500); no identifier is ever returned to drive the GET. Moreover a GET
using the generated identifier also fails, because the stored id is a
string while the GET queries by ObjectId value, so no record matches and
the 404 is re-raised as a 500. -/
theorem c1_post_then_get_roundtrip_fails_eval :
    create_item [] it0 none hex0 =
      (Resp.err 500 "Error creating item: 1 validation error for ItemInDB: id Field required",
       [[("name", Val.vstr "a"), ("description", Val.vstr "b"),
         ("price", Val.vnum 1), ("_id", Val.vstr hex0)]]) ∧
    get_item (create_item [] it0 none hex0).2 hex0 =
      Resp.err 500 "Error retrieving item: 404: Item not found" :=
  ⟨rfl, rfl⟩

/-- C2: GET of an identifier matching no stored record responds 500, not
404: the handler raises HTTPException(404) inside its try block and the
except-Exception clause re-raises it as a 500 whose detail embeds the 404
message. Evaluated on the empty store with a well-formed identifier. -/
theorem c2_get_missing_id_eval :
    get_item [] hex0 = Resp.err 500 "Error retrieving item: 404: Item not found" :=
  rfl

/-- C3: PUT on a nonexistent identifier responds 500, not 404, for the
same swallowed-exception reason; the store is left unchanged (no record is
created), as the evaluation of the returned state shows. -/
theorem c3_put_missing_id_eval :
    update_item [] hex0 it0 =
      (Resp.err 500 "Error updating item: 404: Item not found", []) :=
  rfl

/-- C4: deleting an existing record twice responds 500 then 500, not 200
then 404: the first DELETE removes the record but then fails to serialize
its former representation (underscore-id versus id), and the second DELETE
has its 404 swallowed into a 500 by the catch-all. -/
theorem c4_delete_twice_eval :
    delete_item [docA] hex0 =
      (Resp.err 500 "Error deleting item: 1 validation error for ItemInDB: id Field required",
       []) ∧
    delete_item (delete_item [docA] hex0).2 hex0 =
      (Resp.err 500 "Error deleting item: 404: Item not found", []) :=
  ⟨by decide, by decide⟩

/-- C5: a composite-endpoint call whose word matches zero descriptions
responds 500, not 404: the HTTPException(404) raised for zero matches is
caught by the catch-all at the end of the try block and re-raised as a
500. Evaluated on a store whose only description does not contain the
word. -/
theorem c5_zero_match_eval :
    generate_docx_from_query [docA] [] "gizmo" "ans" =
      (DocxResp.err 500
        "Internal Server Error: 404: No items found with the given word in description",
       []) :=
  by decide

/-- C6: counterexample to the claim that the retrieval index state
consists exactly of the documents of the latest search. After a first
composite call matching the red-widget record and a second call matching
only the blue-gadget record, the global document store holds the records
of both calls, not only the second one: the store is appended to on every
call and never cleared. -/
theorem c6_counterexample :
    ((generate_docx_from_query [docA, docB]
        (generate_docx_from_query [docA] [] "widget" "r1").2 "gadget" "r2").2 =
      [(hex0, "red widget"), ("b", "blue gadget")]) ∧
    ((generate_docx_from_query [docA, docB]
        (generate_docx_from_query [docA] [] "widget" "r1").2 "gadget" "r2").2 ≠
      [("b", "blue gadget")]) :=
  ⟨by decide, by decide⟩

/-- C6 (amended): the retrieval index is a process-global store that
accumulates. A composite call whose search matches at least one record
and whose matched documents have fresh pairwise-distinct ids appends
those documents to whatever the store already holds, so documents from
earlier requests persist across requests. -/
theorem c6_document_store_accumulates (st : Store) (ds : DStore) (word reply : String)
    (hdocs : List (String × String))
    (h1 : matchedItems st word ≠ [])
    (h2 : (matchedItems st word).mapM toHaystackDoc = Except.ok hdocs)
    (h3 : (hdocs.map Prod.fst).Nodup)
    (h4 : ∀ p ∈ hdocs, ∀ q ∈ ds, p.1 ≠ q.1) :
    generate_docx_from_query st ds word reply =
      (DocxResp.file "Ollama_Response.docx", ds ++ hdocs) := by
  have hw := write_documents_fresh hdocs ds h3 h4
  simp only [generate_docx_from_query, generate_docx_inner, if_neg h1, h2, hw]

/-- C6 witness: the amended accumulation theorem applied to a concrete
store already holding an unrelated document. -/
theorem c6_document_store_accumulates_witness :
    (matchedItems [docA] "widget" ≠ []) ∧
    ((matchedItems [docA] "widget").mapM toHaystackDoc = Except.ok [(hex0, "red widget")]) ∧
    (([(hex0, "red widget")].map Prod.fst).Nodup) ∧
    (∀ p ∈ [(hex0, "red widget")], ∀ q ∈ [("z", "zzz")], p.1 ≠ q.1) ∧
    generate_docx_from_query [docA] [("z", "zzz")] "widget" "r" =
      (DocxResp.file "Ollama_Response.docx", [("z", "zzz"), (hex0, "red widget")]) :=
  ⟨by decide, rfl, by decide, by decide,
    c6_document_store_accumulates [docA] [("z", "zzz")] "widget" "r" [(hex0, "red widget")]
      (by decide) rfl (by decide) (by decide)⟩

/-- C7: counterexample to the claim that every envelope lacking a usable
answer fails with the GenerationEmptyResponse condition. An envelope whose
choices key holds an empty array lacks a usable answer, yet the code
raises an IndexError from subscripting the empty list, a different
condition from the HTTPException(500) empty-response signal. -/
theorem c7_counterexample :
    hasUsableAnswer [("choices", JVal.jarr [])] = false ∧
    query_ollama_model [("choices", JVal.jarr [])] = Except.error PyErr.indexErr ∧
    PyErr.indexErr ≠ PyErr.httpExc 500 "Ollama response does not contain a valid answer" :=
  ⟨rfl, rfl, by decide⟩

/-- C7 (amended): for every envelope lacking a usable answer the
operation never returns a value - it always fails with some exception -
and whenever the extraction path itself is well formed the failure is
exactly the GenerationEmptyResponse HTTPException(500). -/
theorem c7_empty_answer_errors (env : List (String × JVal))
    (h : hasUsableAnswer env = false) :
    (∃ e, query_ollama_model env = Except.error e) ∧
    (goodPath env = true →
      query_ollama_model env =
        Except.error (PyErr.httpExc 500 "Ollama response does not contain a valid answer")) := by
  constructor
  · rcases hE : extractAnswer env with e | a
    · exact ⟨e, by simp [query_ollama_model, hE]⟩
    · have ht := extract_falsy_of_not_usable env h a hE
      exact ⟨PyErr.httpExc 500 "Ollama response does not contain a valid answer",
        by simp [query_ollama_model, hE, ht]⟩
  · intro hg
    obtain ⟨a, hE⟩ := extract_ok_of_goodPath env hg
    have ht := extract_falsy_of_not_usable env h a hE
    simp [query_ollama_model, hE, ht]

/-- C7 witness: the amended theorem applied to the empty envelope. -/
theorem c7_empty_answer_errors_witness :
    hasUsableAnswer ([] : List (String × JVal)) = false ∧
    ((∃ e, query_ollama_model ([] : List (String × JVal)) = Except.error e) ∧
      (goodPath ([] : List (String × JVal)) = true →
        query_ollama_model ([] : List (String × JVal)) =
          Except.error (PyErr.httpExc 500 "Ollama response does not contain a valid answer"))) :=
  ⟨rfl, c7_empty_answer_errors [] rfl⟩

/-- C8: a PUT whose find_one_and_update matches a stored record replaces
exactly the name, description and price keys of that record, preserves
its underscore-id key and every other key, and leaves all other records
in place: the store after the call is the old store with only the matched
record rewritten. The identifier is therefore immutable under PUT. -/
theorem c8_put_replaces_only_item_fields (st : Store) (item_id : String) (it : Item)
    (d : MDoc)
    (hv : isValidObjectId item_id = true)
    (hfind : findOne st (Val.oid (strToLower item_id)) = some d) :
    ∃ pre post,
      st = pre ++ d :: post ∧
      (update_item st item_id it).2 = pre ++ setFields d it.model_dump :: post ∧
      lookupKey (setFields d it.model_dump) "_id" = lookupKey d "_id" ∧
      lookupKey (setFields d it.model_dump) "name" = some (Val.vstr it.name) ∧
      lookupKey (setFields d it.model_dump) "description" = some (Val.vstr it.description) ∧
      lookupKey (setFields d it.model_dump) "price" = some (Val.vnum it.price) ∧
      (∀ k, k ≠ "name" → k ≠ "description" → k ≠ "price" →
        lookupKey (setFields d it.model_dump) k = lookupKey d k) := by
  obtain ⟨pre, post, hsplit, hpre, hupd⟩ :=
    updFirst_of_findOne st (Val.oid (strToLower item_id)) d it.model_dump hfind
  have hsf : setFields d it.model_dump =
      setKey (setKey (setKey d "name" (Val.vstr it.name)) "description"
        (Val.vstr it.description)) "price" (Val.vnum it.price) := rfl
  refine ⟨pre, post, hsplit, ?_, ?_, ?_, ?_, ?_, ?_⟩
  · unfold update_item update_item_inner toObjectId
    rw [if_pos hv]
    simp only [hupd]
    cases hmk : mkItemInDB (setFields d it.model_dump) <;> simp [hmk]
  · rw [hsf, lookup_setKey_other _ _ _ _ (by decide),
      lookup_setKey_other _ _ _ _ (by decide), lookup_setKey_other _ _ _ _ (by decide)]
  · rw [hsf, lookup_setKey_other _ _ _ _ (by decide),
      lookup_setKey_other _ _ _ _ (by decide), lookup_setKey_self]
  · rw [hsf, lookup_setKey_other _ _ _ _ (by decide), lookup_setKey_self]
  · rw [hsf, lookup_setKey_self]
  · intro k hk1 hk2 hk3
    rw [hsf, lookup_setKey_other _ _ _ _ hk3, lookup_setKey_other _ _ _ _ hk2,
      lookup_setKey_other _ _ _ _ hk1]

/-- C8 witness: the frame theorem applied to a one-record store. -/
theorem c8_put_replaces_only_item_fields_witness :
    isValidObjectId hex0 = true ∧
    findOne [docA] (Val.oid (strToLower hex0)) = some docA ∧
    (∃ pre post,
      [docA] = pre ++ docA :: post ∧
      (update_item [docA] hex0 ⟨"nn", "dd", 7⟩).2 =
        pre ++ setFields docA (Item.model_dump ⟨"nn", "dd", 7⟩) :: post ∧
      lookupKey (setFields docA (Item.model_dump ⟨"nn", "dd", 7⟩)) "_id" =
        lookupKey docA "_id" ∧
      lookupKey (setFields docA (Item.model_dump ⟨"nn", "dd", 7⟩)) "name" =
        some (Val.vstr "nn") ∧
      lookupKey (setFields docA (Item.model_dump ⟨"nn", "dd", 7⟩)) "description" =
        some (Val.vstr "dd") ∧
      lookupKey (setFields docA (Item.model_dump ⟨"nn", "dd", 7⟩)) "price" =
        some (Val.vnum 7) ∧
      (∀ k, k ≠ "name" → k ≠ "description" → k ≠ "price" →
        lookupKey (setFields docA (Item.model_dump ⟨"nn", "dd", 7⟩)) k =
          lookupKey docA k)) :=
  ⟨by decide, by decide,
    c8_put_replaces_only_item_fields [docA] hex0 ⟨"nn", "dd", 7⟩ docA (by decide) (by decide)⟩

/-- C9: a GET with a malformed identifier fails cleanly: the InvalidId
exception raised by the ObjectId constructor is caught by the handler and
mapped to a 500 error response carrying the rendered exception, never
escaping as an unhandled crash. -/
theorem c9_malformed_id_mapped_error (st : Store) (s : String)
    (h : isValidObjectId s = false) :
    get_item st s = Resp.err 500 ("Error retrieving item: " ++ errStr (PyErr.invalidId s)) := by
  simp [get_item, get_item_inner, toObjectId, h]

/-- C9 witness: the mapping theorem applied to a concrete malformed id. -/
theorem c9_malformed_id_mapped_error_witness :
    isValidObjectId "not-a-valid-object-id" = false ∧
    get_item [] "not-a-valid-object-id" =
      Resp.err 500 ("Error retrieving item: " ++ errStr (PyErr.invalidId "not-a-valid-object-id")) :=
  ⟨by decide, c9_malformed_id_mapped_error [] "not-a-valid-object-id" (by decide)⟩

/-- C10: counterexample to the claim that the response to a POST with an
empty custom_id carries the generated identifier: the response is a 500
error (ItemInDB validation fails on the stored document), not a success
body carrying any identifier. -/
theorem c10_counterexample :
    ((create_item [] it0 (some "") hex0).1 =
      Resp.err 500 "Error creating item: 1 validation error for ItemInDB: id Field required") ∧
    (∀ body : ItemInDB, (create_item [] it0 (some "") hex0).1 ≠ Resp.ok body) :=
  ⟨rfl, fun _ h => Resp.noConfusion h⟩

/-- C10 (amended): a falsy custom_id (the empty string) is treated as
absent: the call behaves identically to one with no custom_id, and the
stored document receives the freshly generated ObjectId string as its
identifier; the response however is the 500 serialization error, so it
does not carry the identifier. -/
theorem c10_falsy_custom_id_generates (st : Store) (it : Item) (genHex : String)
    (hfresh : findOne st (Val.vstr genHex) = none) :
    create_item st it (some "") genHex = create_item st it none genHex ∧
    (create_item st it (some "") genHex).2 =
      st ++ [it.model_dump ++ [("_id", Val.vstr genHex)]] ∧
    (create_item st it (some "") genHex).1 =
      Resp.err 500 ("Error creating item: " ++ errStr (PyErr.validation "id")) := by
  have hlook : lookupKey (it.model_dump ++ [("_id", Val.vstr genHex)]) "_id" =
      some (Val.vstr genHex) := by
    simp [Item.model_dump, lookupKey]
  have hins : insertOne st (it.model_dump ++ [("_id", Val.vstr genHex)]) =
      Except.ok (st ++ [it.model_dump ++ [("_id", Val.vstr genHex)]]) := by
    simp [insertOne, hlook, hfresh]
  have hfind : findOne (st ++ [it.model_dump ++ [("_id", Val.vstr genHex)]])
      (Val.vstr genHex) = some (it.model_dump ++ [("_id", Val.vstr genHex)]) := by
    rw [findOne_append_of_none st _ _ hfresh]
    simp [hlook]
  have hmk : mkItemInDB (it.model_dump ++ [("_id", Val.vstr genHex)]) =
      Except.error (PyErr.validation "id") := by
    simp [mkItemInDB, getStrField, getNumField, Item.model_dump, lookupKey]
  refine ⟨rfl, ?_, ?_⟩
  · simp [create_item, create_item_inner, hins, hfind, hmk]
  · simp [create_item, create_item_inner, hins, hfind, hmk]

/-- C10 witness: the amended theorem applied to the empty store. -/
theorem c10_falsy_custom_id_generates_witness :
    findOne [] (Val.vstr hex0) = none ∧
    (create_item [] it0 (some "") hex0 = create_item [] it0 none hex0 ∧
      (create_item [] it0 (some "") hex0).2 =
        [] ++ [it0.model_dump ++ [("_id", Val.vstr hex0)]] ∧
      (create_item [] it0 (some "") hex0).1 =
        Resp.err 500 ("Error creating item: " ++ errStr (PyErr.validation "id"))) :=
  ⟨rfl, c10_falsy_custom_id_generates [] it0 hex0 rfl⟩
